import Mathlib

/-!
Verification of the create-filament scaffolding generator
(`src/index.ts`): the configuration resolver (`promptForConfig`) and the
fail-fast generation pipeline driven by `main`, together with the
feature-conditional file generators (`generateDockerFiles`,
`generateCIFiles`, `installDependencies`).

All definitions are shallow embeddings of the TypeScript source.  File
contents written as template literals in the source are modelled as the
list of their lines (the literal joined back with a newline separator is
the on-disk content).  JavaScript `undefined` for an optional raw answer
is modelled as `Option.none`; where the source stores a possibly
`undefined` value into a boolean field and every consumer only tests
truthiness, the embedding coerces with `Option.getD false`.
-/

/-- The template tier of `ProjectConfig.template` (`src/index.ts` line 16). -/
inductive Template
  | minimal
  | api
  | full
deriving DecidableEq

/-- The CI provider of `ProjectConfig.features.ci` (`src/index.ts` line 20). -/
inductive Ci
  | github
  | gitlab
  | none
deriving DecidableEq

/-- The package manager enumeration (`src/index.ts` line 25). -/
inductive PackageManager
  | npm
  | pnpm
  | yarn
  | bun
deriving DecidableEq

/-- The `features` record of `ProjectConfig` (`src/index.ts` lines 17-24). -/
structure Features where
  docker : Bool
  dockerCompose : Bool
  ci : Ci
  openapi : Bool
  auth : Bool
  observability : Bool
deriving DecidableEq

/-- The resolved configuration record (`src/index.ts` lines 14-29). -/
structure ProjectConfig where
  name : String
  template : Template
  features : Features
  packageManager : PackageManager
  git : Bool
  gitCommit : Bool
  install : Bool
deriving DecidableEq

/-- The raw answers returned by the `prompts` call (`src/index.ts` line 115),
with optional fields (`name` is only asked when no positional name was given,
`additionalFeatures` only for the minimal tier, `gitCommit` only when `git`
is true) modelled as `Option`. -/
structure RawAnswers where
  name : Option String
  template : Template
  additionalFeatures : Option (List String)
  packageManager : PackageManager
  git : Bool
  gitCommit : Option Bool
deriving DecidableEq

/-- Error taxonomy relevant to the resolver: the `validate` callback of the
name question (`src/index.ts` lines 53-59) rejecting an answer. -/
inductive ScaffoldError
  | validation (msg : String)
deriving DecidableEq

/-- The name validation of the `validate` callback (`src/index.ts` lines
53-59): nonempty and matching `^[a-z0-9-_]+$`. -/
def validName (s : String) : Bool :=
  s.length > 0 &&
    s.toList.all fun c =>
      (('a' ≤ c && c ≤ 'z') || ('0' ≤ c && c ≤ '9') || c = '-' || c = '_')

/-- JavaScript truthiness of an optional string (`!projectName` at line 47
and `projectName || answers.name` at line 155 both treat `undefined` and
the empty string as absent). -/
def strTruthy : Option String → Bool
  | Option.none => false
  | Option.some s => s != ""

/-- Feature resolution (`src/index.ts` lines 122-152): start from the
zero-value record, unconditionally overwrite for the api/full tiers, add
observability for full, and for the minimal tier with a supplied (possibly
empty, hence truthy in JS) selection list replace every flag by a
membership test. -/
def resolveFeatures (tmpl : Template) (additionalFeatures : Option (List String)) : Features :=
  let f0 : Features :=
    { docker := false, dockerCompose := false, ci := Ci.none,
      openapi := false, auth := false, observability := false }
  let f1 :=
    if tmpl = Template.api ∨ tmpl = Template.full then
      { f0 with docker := true, dockerCompose := true, ci := Ci.github,
                openapi := true, auth := true }
    else f0
  let f2 := if tmpl = Template.full then { f1 with observability := true } else f1
  if tmpl = Template.minimal then
    match additionalFeatures with
    | Option.some sel =>
      { docker := sel.contains "docker",
        dockerCompose := sel.contains "dockerCompose",
        ci := if sel.contains "ci-github" then Ci.github else Ci.none,
        openapi := sel.contains "openapi",
        auth := sel.contains "auth",
        observability := sel.contains "observability" }
    | Option.none => f2
  else f2

/-- The record returned by `promptForConfig` (`src/index.ts` lines 154-162)
once a name is settled.  `gitCommit: answers.gitCommit` can be `undefined`
in the source (the prompt is skipped when `git` is false); every consumer
only tests its truthiness, so absence is coerced to `false`. -/
def mkConfig (answers : RawAnswers) (nm : String) : ProjectConfig :=
  { name := nm,
    template := answers.template,
    features := resolveFeatures answers.template answers.additionalFeatures,
    packageManager := answers.packageManager,
    git := answers.git,
    gitCommit := answers.gitCommit.getD false,
    install := true }

/-- The resolution semantics of `promptForConfig` (`src/index.ts` lines
44-163): when a truthy positional name was given the name question is never
pushed (line 47) and `projectName || answers.name` (line 155) selects the
positional name unvalidated; otherwise the prompted name must pass the
`validate` callback, a rejected answer never producing a config. -/
def promptForConfig (projectName : Option String) (answers : RawAnswers) :
    Except ScaffoldError ProjectConfig :=
  if strTruthy projectName then
    Except.ok (mkConfig answers (projectName.getD ""))
  else
    match answers.name with
    | Option.none => Except.error (ScaffoldError.validation "Project name is required")
    | Option.some n =>
      if n = "" then
        Except.error (ScaffoldError.validation "Project name is required")
      else if validName n then
        Except.ok (mkConfig answers n)
      else
        Except.error (ScaffoldError.validation
          "Project name can only contain lowercase letters, numbers, hyphens, and underscores")

/-- The conditional gitCommit question (`src/index.ts` lines 107-112):
`type: (prev) => prev ? 'confirm' : null`, i.e. the answer is only
collected when `git` was answered true. -/
def collectedGitCommit (git : Bool) (userAnswer : Bool) : Option Bool :=
  if git then Option.some userAnswer else Option.none

/-- The output directory (`src/index.ts` line 1046): the resolved name is
used unchanged as the directory name. -/
def outputDirName (cfg : ProjectConfig) : String :=
  cfg.name

/-- Spec-side record (spec §4.1 step 2): the fixed feature set of the api
tier. -/
def specApiFeatures : Features :=
  { docker := true, dockerCompose := true, ci := Ci.github,
    openapi := true, auth := true, observability := false }

/-- Spec-side record (spec §4.1 steps 2-3): the fixed feature set of the
full tier. -/
def specFullFeatures : Features :=
  { docker := true, dockerCompose := true, ci := Ci.github,
    openapi := true, auth := true, observability := true }

/-- Spec-side record (spec §4.1 step 1): the zero-value feature set. -/
def zeroFeatures : Features :=
  { docker := false, dockerCompose := false, ci := Ci.none,
    openapi := false, auth := false, observability := false }

/-- Spec-side function (spec §4.1 step 4): each flag derived independently
by membership of its token in the supplied selection. -/
def specMinimalFeatures (sel : List String) : Features :=
  { docker := sel.contains "docker",
    dockerCompose := sel.contains "dockerCompose",
    ci := if sel.contains "ci-github" then Ci.github else Ci.none,
    openapi := sel.contains "openapi",
    auth := sel.contains "auth",
    observability := sel.contains "observability" }

/-- The `Dockerfile` template literal (`src/index.ts` lines 512-555),
line by line. -/
def dockerfileLines : List String :=
  ["# Build stage",
   "FROM node:20-alpine AS builder",
   "",
   "WORKDIR /app",
   "",
   "# Copy package files",
   "COPY package*.json ./",
   "",
   "# Install dependencies",
   "RUN npm ci",
   "",
   "# Copy source",
   "COPY . .",
   "",
   "# Build",
   "RUN npm run build",
   "",
   "# Runtime stage",
   "FROM node:20-alpine",
   "",
   "WORKDIR /app",
   "",
   "# Copy package files",
   "COPY package*.json ./",
   "",
   "# Install production dependencies only",
   "RUN npm ci --production",
   "",
   "# Copy built files",
   "COPY --from=builder /app/dist ./dist",
   "",
   "# Create non-root user",
   "RUN addgroup -g 1001 -S nodejs && \\",
   "    adduser -S nodejs -u 1001",
   "",
   "USER nodejs",
   "",
   "EXPOSE 3000",
   "",
   "HEALTHCHECK --interval=30s --timeout=3s --start-period=5s --retries=3 \\",
   "  CMD node -e \"require(\x27http\x27).get(\x27http://localhost:3000/health\x27, (r) => \x7bprocess.exit(r.statusCode === 200 ? 0 : 1)\x7d)\"",
   "",
   "CMD [\"node\", \"dist/index.js\"]",
   ""]

/-- The `.dockerignore` template literal (`src/index.ts` lines 559-570). -/
def dockerignoreLines : List String :=
  ["node_modules", "dist", "*.log", ".env", ".git", ".github", ".vscode",
   ".idea", "*.md", "tests", "coverage", ""]

/-- One service of the compose definition (`src/index.ts` lines 576-598);
absent object keys are modelled by `Option.none` / `[]` defaults. -/
structure ComposeService where
  build : Option String := Option.none
  image : Option String := Option.none
  ports : List String := []
  environment : List String := []
  volumes : List String := []
  depends_on : List String := []
  restart : String := ""
deriving DecidableEq

/-- The compose document (`src/index.ts` lines 601-605); the `volumes` key
is `undefined` unless auth is enabled. -/
structure DockerCompose where
  version : String
  services : List (String × ComposeService)
  volumes : Option (List String)
deriving DecidableEq

/-- The base `app` service (`src/index.ts` lines 576-587). -/
def appServiceBase : ComposeService :=
  { build := Option.some ".",
    ports := ["3000:3000"],
    environment := ["NODE_ENV=production", "LOG_LEVEL=info"],
    depends_on := [],
    restart := "unless-stopped" }

/-- The compose definition built by `generateDockerFiles` (`src/index.ts`
lines 575-605): when auth is enabled the app service gains a redis
environment entry and a `depends_on` edge, and a `redis` service plus its
named volume are added. -/
def composeFile (cfg : ProjectConfig) : DockerCompose :=
  if cfg.features.auth then
    { version := "3.8",
      services :=
        [("app",
          { appServiceBase with
              environment := appServiceBase.environment ++ ["REDIS_URL=redis://redis:6379"],
              depends_on := appServiceBase.depends_on ++ ["redis"] }),
         ("redis",
          { image := Option.some "redis:7-alpine",
            ports := ["6379:6379"],
            volumes := ["redis-data:/data"],
            restart := "unless-stopped" })],
      volumes := Option.some ["redis-data"] }
  else
    { version := "3.8",
      services := [("app", appServiceBase)],
      volumes := Option.none }

/-- A file emitted by a generation step: plain text (as its lines) or the
JSON-serialised compose document. -/
inductive GeneratedFile
  | text (path : String) (lines : List String)
  | yaml (path : String) (compose : DockerCompose)
deriving DecidableEq

/-- The path a generated file is written to. -/
def filePath : GeneratedFile → String
  | GeneratedFile.text p _ => p
  | GeneratedFile.yaml p _ => p

/-- `generateDockerFiles` (`src/index.ts` lines 503-620): early return when
neither docker flag is set; `Dockerfile` and `.dockerignore` iff `docker`;
`docker-compose.yml` iff `dockerCompose`. -/
def generateDockerFiles (cfg : ProjectConfig) : List GeneratedFile :=
  if !cfg.features.docker && !cfg.features.dockerCompose then []
  else
    (if cfg.features.docker then
      [GeneratedFile.text "Dockerfile" dockerfileLines,
       GeneratedFile.text ".dockerignore" dockerignoreLines]
     else []) ++
    (if cfg.features.dockerCompose then
      [GeneratedFile.yaml "docker-compose.yml" (composeFile cfg)]
     else [])

/-- The `ciWorkflow` template literal (`src/index.ts` lines 634-672),
line by line; it ends with a trailing newline, hence the final empty
line. -/
def ciBaseLines : List String :=
  ["name: CI",
   "",
   "on:",
   "  push:",
   "    branches: [ main, develop ]",
   "  pull_request:",
   "    branches: [ main, develop ]",
   "",
   "jobs:",
   "  test:",
   "    runs-on: ubuntu-latest",
   "    ",
   "    steps:",
   "    - uses: actions/checkout@v4",
   "    ",
   "    - name: Setup Node.js",
   "      uses: actions/setup-node@v4",
   "      with:",
   "        node-version: \x2720\x27",
   "        cache: \x27npm\x27",
   "    ",
   "    - name: Install dependencies",
   "      run: npm ci",
   "    ",
   "    - name: Run linter",
   "      run: npm run lint",
   "    ",
   "    - name: Type check",
   "      run: npm run type-check",
   "    ",
   "    - name: Run tests",
   "      run: npm test",
   "    ",
   "    - name: Check dependencies",
   "      run: npm run depcheck",
   "    ",
   "    - name: Build",
   "      run: npm run build",
   ""]

/-- The `dockerJob` string appended when `docker` is set (`src/index.ts`
lines 674-688); its leading newline merges with the workflow's trailing
newline, so as lines it simply continues the base list. -/
def ciDockerJobLines (cfg : ProjectConfig) : List String :=
  ["  docker:",
   "    runs-on: ubuntu-latest",
   "    needs: test",
   "    if: github.ref == \x27refs/heads/main\x27",
   "    ",
   "    steps:",
   "    - uses: actions/checkout@v4",
   "    ",
   "    - name: Build Docker image",
   "      run: docker build -t " ++ cfg.name ++ ":latest .",
   ""]

/-- The content written to `.github/workflows/ci.yml` (`src/index.ts`
lines 690-693): the base workflow plus the docker job iff `docker`. -/
def ciWorkflowLines (cfg : ProjectConfig) : List String :=
  ciBaseLines ++ (if cfg.features.docker then ciDockerJobLines cfg else [])

/-- `generateCIFiles` (`src/index.ts` lines 622-703): nothing when
`ci = none`; exactly one workflow file when `ci = github`; the `gitlab`
value falls through both branches and emits nothing. -/
def generateCIFiles (cfg : ProjectConfig) : List GeneratedFile :=
  if cfg.features.ci = Ci.none then []
  else if cfg.features.ci = Ci.github then
    [GeneratedFile.text ".github/workflows/ci.yml" (ciWorkflowLines cfg)]
  else []

/-- The display name of a package manager, as interpolated into the
remediation message (`src/index.ts` line 970). -/
def pmName : PackageManager → String
  | PackageManager.npm => "npm"
  | PackageManager.pnpm => "pnpm"
  | PackageManager.yarn => "yarn"
  | PackageManager.bun => "bun"

/-- The install commands record (`src/index.ts` lines 953-958). -/
def installCommand : PackageManager → String
  | PackageManager.npm => "npm install"
  | PackageManager.pnpm => "pnpm install"
  | PackageManager.yarn => "yarn"
  | PackageManager.bun => "bun install"

/-- The remediation message printed when the install subprocess fails
(`src/index.ts` lines 969-970), as its two console lines. -/
def installRemediation (cfg : ProjectConfig) : List String :=
  ["You can install dependencies manually by running:",
   "  cd " ++ cfg.name ++ " && " ++ pmName cfg.packageManager ++ " install"]

/-- `installDependencies` (`src/index.ts` lines 945-973): skipped (success)
when `install` is false; otherwise runs the install command, whose outcome
is the environment-supplied `subprocessOk`; on failure it prints the
remediation message and returns `false`. -/
def installDependencies (cfg : ProjectConfig) (subprocessOk : Bool) :
    List String × Bool :=
  if !cfg.install then ([], true)
  else if subprocessOk then ([], true)
  else (installRemediation cfg, false)

/-- One pipeline step as driven by `main` (`src/index.ts` lines 1055-1065):
a name and an effect on an abstract state returning the new state and a
success flag. -/
structure StepDef (σ : Type) where
  name : String
  run : σ → σ × Bool

/-- The driver loop of `main` (`src/index.ts` lines 1067-1072): run each
step in order; the first step returning `false` stops the loop with a
failed run (the source then exits nonzero), keeping whatever state the
steps so far produced.  Returns the final state, the names of the executed
steps, and the overall success flag. -/
def runPipeline {σ : Type} : List (StepDef σ) → σ → σ × List String × Bool
  | [], s => (s, [], true)
  | st :: rest, s =>
    if (st.run s).snd then
      ((runPipeline rest (st.run s).fst).fst,
       st.name :: (runPipeline rest (st.run s).fst).snd.fst,
       (runPipeline rest (st.run s).fst).snd.snd)
    else
      ((st.run s).fst, [st.name], false)

/-- The state reached after running a list of steps unconditionally. -/
def threadState {σ : Type} : List (StepDef σ) → σ → σ
  | [], s => s
  | st :: rest, s => threadState rest (st.run s).fst

/-- Every step in the list succeeds when run in sequence from `s`. -/
def allSucceed {σ : Type} : List (StepDef σ) → σ → Prop
  | [], _ => True
  | st :: rest, s => (st.run s).snd = true ∧ allSucceed rest (st.run s).fst

/-- The `steps` array of `main` (`src/index.ts` lines 1055-1065): the nine
generation steps in their fixed source order, abstracted over each step's
effect. -/
def mainSteps {σ : Type}
    (createStructure copyTemplates genPackageJson genConfigFiles
     genDockerFiles genCIFiles genReadme installDeps initGit : σ → σ × Bool) :
    List (StepDef σ) :=
  [⟨"createProjectStructure", createStructure⟩,
   ⟨"copyTemplateFiles", copyTemplates⟩,
   ⟨"generatePackageJson", genPackageJson⟩,
   ⟨"generateConfigFiles", genConfigFiles⟩,
   ⟨"generateDockerFiles", genDockerFiles⟩,
   ⟨"generateCIFiles", genCIFiles⟩,
   ⟨"generateREADME", genReadme⟩,
   ⟨"installDependencies", installDeps⟩,
   ⟨"initializeGit", initGit⟩]

/-- The names of the nine pipeline steps in source order. -/
def mainStepNames : List String :=
  ["createProjectStructure", "copyTemplateFiles", "generatePackageJson",
   "generateConfigFiles", "generateDockerFiles", "generateCIFiles",
   "generateREADME", "installDependencies", "initializeGit"]

/-- The first HEALTHCHECK line of the Dockerfile template
(`src/index.ts` line 551). -/
def healthcheckLine : String :=
  "HEALTHCHECK --interval=30s --timeout=3s --start-period=5s --retries=3 \\"

/-- Concrete raw answers: api tier with a (structurally unavailable in the
interactive flow, but supplied) additional-features list. -/
def rawApi : RawAnswers :=
  ⟨Option.some "my-api", Template.api, Option.some ["observability"],
   PackageManager.npm, true, Option.some true⟩

/-- The config `rawApi` resolves to. -/
def cfgApiW : ProjectConfig :=
  ⟨"my-api", Template.api, specApiFeatures, PackageManager.npm, true, true, true⟩

/-- Concrete raw answers: minimal tier selecting docker and auth. -/
def rawMin : RawAnswers :=
  ⟨Option.some "my-api", Template.minimal, Option.some ["docker", "auth"],
   PackageManager.npm, true, Option.none⟩

/-- The config `rawMin` resolves to. -/
def cfgMinW : ProjectConfig :=
  ⟨"my-api", Template.minimal, specMinimalFeatures ["docker", "auth"],
   PackageManager.npm, true, false, true⟩

/-- Concrete raw answers with `git = false` but a supplied
`gitCommit = true` answer. -/
def rawC5 : RawAnswers :=
  ⟨Option.some "my-api", Template.minimal, Option.some [],
   PackageManager.npm, false, Option.some true⟩

/-- The config `rawC5` resolves to: `gitCommit` stays `true`. -/
def cfgC5 : ProjectConfig :=
  ⟨"my-api", Template.minimal, zeroFeatures, PackageManager.npm, false, true, true⟩

/-- Concrete raw answers with `git = false` and no collected `gitCommit`
answer, as the interactive flow produces. -/
def rawGitNone : RawAnswers :=
  ⟨Option.some "my-api", Template.minimal, Option.some [],
   PackageManager.npm, false, Option.none⟩

/-- The config `rawGitNone` resolves to. -/
def cfgGitNone : ProjectConfig :=
  ⟨"my-api", Template.minimal, zeroFeatures, PackageManager.npm, false, false, true⟩

/-- Concrete raw answers for a run that got its name positionally. -/
def rawC6 : RawAnswers :=
  ⟨Option.none, Template.minimal, Option.some [],
   PackageManager.npm, true, Option.some true⟩

/-- The config produced when the positional name is `"My App"`. -/
def cfgC6 : ProjectConfig :=
  ⟨"My App", Template.minimal, zeroFeatures, PackageManager.npm, true, true, true⟩

/-- Concrete raw answers with no name at all. -/
def rawNoName : RawAnswers :=
  ⟨Option.none, Template.minimal, Option.some [],
   PackageManager.npm, true, Option.none⟩

/-- Concrete raw answers with the valid prompted name `my-api_2`. -/
def rawValid2 : RawAnswers :=
  ⟨Option.some "my-api_2", Template.minimal, Option.some [],
   PackageManager.npm, true, Option.none⟩

/-- The config `rawValid2` resolves to. -/
def cfgValid2 : ProjectConfig :=
  ⟨"my-api_2", Template.minimal, zeroFeatures, PackageManager.npm, true, false, true⟩

/-- A concrete config with every docker-related feature enabled. -/
def cfgDocker : ProjectConfig :=
  ⟨"my-api", Template.full, specFullFeatures, PackageManager.npm, true, true, true⟩

/-- A concrete config with every feature disabled. -/
def cfgPlain : ProjectConfig :=
  ⟨"my-api", Template.minimal, zeroFeatures, PackageManager.npm, true, false, true⟩

/-- A concrete config with compose and auth enabled. -/
def cfgCompose : ProjectConfig :=
  ⟨"my-api", Template.api, specApiFeatures, PackageManager.npm, true, true, true⟩

/-- A pipeline step that always succeeds, logging its name. -/
def noopStep (nm : String) : StepDef (List String) :=
  ⟨nm, fun log => (log ++ [nm], true)⟩

/-- A pipeline step that fails after logging. -/
def failStep : StepDef (List String) :=
  ⟨"boom", fun log => (log ++ ["boom"], false)⟩

/-- A demo step effect that succeeds and logs a marker. -/
def demoRunner (nm : String) : List String → List String × Bool :=
  fun log => (log ++ [nm], true)

/-- The install step's effect on the console log, from the
`installDependencies` model. -/
def installRunner (cfg : ProjectConfig) (subprocessOk : Bool) :
    List String → List String × Bool :=
  fun log =>
    (log ++ (installDependencies cfg subprocessOk).fst,
     (installDependencies cfg subprocessOk).snd)

/-- A concrete config whose run reaches the install step
(`install = true`, `git = true`). -/
def cfgC4 : ProjectConfig :=
  ⟨"my-api", Template.minimal, zeroFeatures, PackageManager.npm, true, true, true⟩

/-- The nine-step pipeline of `main` instantiated with a failing install
subprocess. -/
def pipelineC4 : List (StepDef (List String)) :=
  mainSteps (demoRunner "s1") (demoRunner "s2") (demoRunner "s3")
    (demoRunner "s4") (demoRunner "s5") (demoRunner "s6") (demoRunner "s7")
    (installRunner cfgC4 false) (demoRunner "s9")

theorem promptForConfig_ok_shape (p : Option String) (raw : RawAnswers)
    (cfg : ProjectConfig) (h : promptForConfig p raw = Except.ok cfg) :
    ∃ nm, cfg = mkConfig raw nm := by
  unfold promptForConfig at h
  by_cases hp : strTruthy p = true
  · simp [hp] at h
    exact ⟨p.getD "", h.symm⟩
  · simp [hp] at h
    cases hname : raw.name with
    | none => simp [hname] at h
    | some n =>
      simp [hname] at h
      by_cases he : n = ""
      · simp [he] at h
      · simp [he] at h
        by_cases hv : validName n = true
        · simp [hv] at h
          exact ⟨n, h.symm⟩
        · simp [hv] at h

theorem resolveFeatures_api (af : Option (List String)) :
    resolveFeatures Template.api af = specApiFeatures := rfl

theorem resolveFeatures_full (af : Option (List String)) :
    resolveFeatures Template.full af = specFullFeatures := rfl

theorem resolveFeatures_minimal_some (sel : List String) :
    resolveFeatures Template.minimal (Option.some sel) = specMinimalFeatures sel := rfl

/-- Claim C1: for raw answers with template api or full, the resolved
features record is exactly the fixed tier default, regardless of any
supplied additionalFeatures value; in particular an empty selection and a
selection of observability resolve to identical feature records. -/
theorem tierFeaturesFixed :
    (∀ (p : Option String) (raw : RawAnswers) (cfg : ProjectConfig),
        promptForConfig p raw = Except.ok cfg →
        (raw.template = Template.api → cfg.features = specApiFeatures) ∧
        (raw.template = Template.full → cfg.features = specFullFeatures)) ∧
    resolveFeatures Template.api (Option.some []) =
      resolveFeatures Template.api (Option.some ["observability"]) ∧
    resolveFeatures Template.full (Option.some []) =
      resolveFeatures Template.full (Option.some ["observability"]) := by
  refine ⟨?_, rfl, rfl⟩
  intro p raw cfg h
  obtain ⟨nm, rfl⟩ := promptForConfig_ok_shape p raw cfg h
  constructor
  · intro ht
    show resolveFeatures raw.template raw.additionalFeatures = specApiFeatures
    rw [ht]
    exact resolveFeatures_api _
  · intro ht
    show resolveFeatures raw.template raw.additionalFeatures = specFullFeatures
    rw [ht]
    exact resolveFeatures_full _

/-- Witness for C1 at the concrete input `rawApi`. -/
theorem tierFeaturesFixedWitness :
    promptForConfig Option.none rawApi = Except.ok cfgApiW ∧
    rawApi.template = Template.api ∧
    cfgApiW.features = specApiFeatures :=
  ⟨rfl, rfl, (tierFeaturesFixed.1 Option.none rawApi cfgApiW rfl).1 rfl⟩

/-- Claim C2: for raw answers with template minimal and a supplied token
list, each resolved flag equals the membership test of its token in that
list; the given examples evaluate as the claim states. -/
theorem minimalFeaturesMembership :
    (∀ (p : Option String) (raw : RawAnswers) (sel : List String)
        (cfg : ProjectConfig),
        raw.template = Template.minimal →
        raw.additionalFeatures = Option.some sel →
        promptForConfig p raw = Except.ok cfg →
        cfg.features = specMinimalFeatures sel) ∧
    specMinimalFeatures ["docker", "auth"] =
      { docker := true, dockerCompose := false, ci := Ci.none,
        openapi := false, auth := true, observability := false } ∧
    resolveFeatures Template.minimal (Option.some []) = zeroFeatures := by
  refine ⟨?_, rfl, rfl⟩
  intro p raw sel cfg ht haf h
  obtain ⟨nm, rfl⟩ := promptForConfig_ok_shape p raw cfg h
  show resolveFeatures raw.template raw.additionalFeatures = specMinimalFeatures sel
  rw [ht, haf]
  exact resolveFeatures_minimal_some sel

/-- Witness for C2 at the concrete input `rawMin`. -/
theorem minimalFeaturesMembershipWitness :
    rawMin.template = Template.minimal ∧
    rawMin.additionalFeatures = Option.some ["docker", "auth"] ∧
    promptForConfig Option.none rawMin = Except.ok cfgMinW ∧
    cfgMinW.features = specMinimalFeatures ["docker", "auth"] :=
  ⟨rfl, rfl, rfl,
   minimalFeaturesMembership.1 Option.none rawMin ["docker", "auth"] cfgMinW rfl rfl rfl⟩

/-- Claim C5 counterexample: a raw answer set with `git = false` but a
supplied `gitCommit = true` answer resolves to `gitCommit = true` — the
resolver copies the raw answer and never forces it to false. -/
theorem gitCommitNotForcedCex :
    rawC5.git = false ∧
    promptForConfig Option.none rawC5 = Except.ok cfgC5 ∧
    cfgC5.gitCommit = true :=
  ⟨rfl, rfl, rfl⟩

/-- Claim C5 as amended: when `git = false` the interactive flow collects
no `gitCommit` answer (the prompt is structurally skipped), and whenever
the raw `gitCommit` answer is absent the resolved `gitCommit` is false. -/
theorem gitCommitAbsentResolvesFalse :
    (∀ u : Bool, collectedGitCommit false u = Option.none) ∧
    (∀ (p : Option String) (raw : RawAnswers) (cfg : ProjectConfig),
        raw.gitCommit = Option.none →
        promptForConfig p raw = Except.ok cfg →
        cfg.gitCommit = false) := by
  constructor
  · intro u; rfl
  · intro p raw cfg hg h
    obtain ⟨nm, rfl⟩ := promptForConfig_ok_shape p raw cfg h
    show raw.gitCommit.getD false = false
    rw [hg]
    rfl

/-- Witness for the amended C5 at the concrete input `rawGitNone`. -/
theorem gitCommitAbsentResolvesFalseWitness :
    collectedGitCommit false true = Option.none ∧
    rawGitNone.gitCommit = Option.none ∧
    promptForConfig Option.none rawGitNone = Except.ok cfgGitNone ∧
    cfgGitNone.gitCommit = false :=
  ⟨gitCommitAbsentResolvesFalse.1 true, rfl, rfl,
   gitCommitAbsentResolvesFalse.2 Option.none rawGitNone cfgGitNone rfl rfl⟩

/-- Claim C6 counterexample: the name `"My App"` fails the identifier
pattern, yet supplied as the positional CLI argument it produces a config
without any ValidationError, and is used as the output directory name. -/
theorem positionalNameBypassCex :
    validName "My App" = false ∧
    promptForConfig (Option.some "My App") rawC6 = Except.ok cfgC6 ∧
    outputDirName cfgC6 = "My App" :=
  ⟨rfl, rfl, rfl⟩

/-- Claim C6 as amended: on the interactive path (no positional name),
resolution fails with a ValidationError when the name is absent or fails
the pattern; "My App" and "my app" are rejected, "my-api_2" accepted; a
validated name is used unchanged as the output directory name. -/
theorem interactiveNameValidated :
    validName "My App" = false ∧ validName "my app" = false ∧
    validName "my-api_2" = true ∧
    (∀ raw : RawAnswers, raw.name = Option.none →
        promptForConfig Option.none raw =
          Except.error (ScaffoldError.validation "Project name is required")) ∧
    (∀ (raw : RawAnswers) (n : String),
        raw.name = Option.some n → validName n = false →
        ∃ msg, promptForConfig Option.none raw =
          Except.error (ScaffoldError.validation msg)) ∧
    (∀ (raw : RawAnswers) (n : String) (cfg : ProjectConfig),
        raw.name = Option.some n →
        promptForConfig Option.none raw = Except.ok cfg →
        validName n = true ∧ outputDirName cfg = n) := by
  refine ⟨rfl, rfl, rfl, ?_, ?_, ?_⟩
  · intro raw hn
    simp [promptForConfig, strTruthy, hn]
  · intro raw n hn hv
    by_cases he : n = ""
    · exact ⟨"Project name is required", by simp [promptForConfig, strTruthy, hn, he]⟩
    · refine ⟨"Project name can only contain lowercase letters, numbers, hyphens, and underscores", ?_⟩
      simp [promptForConfig, strTruthy, hn, he, hv]
  · intro raw n cfg hn h
    simp only [promptForConfig, strTruthy, hn] at h
    by_cases he : n = ""
    · simp [he] at h
    · by_cases hv : validName n = true
      · simp [he, hv] at h
        exact ⟨hv, by rw [← h]; rfl⟩
      · simp [he, hv] at h

/-- Witness for the amended C6 at concrete inputs. -/
theorem interactiveNameValidatedWitness :
    rawNoName.name = Option.none ∧
    promptForConfig Option.none rawNoName =
      Except.error (ScaffoldError.validation "Project name is required") ∧
    rawValid2.name = Option.some "my-api_2" ∧
    promptForConfig Option.none rawValid2 = Except.ok cfgValid2 ∧
    validName "my-api_2" = true ∧
    outputDirName cfgValid2 = "my-api_2" :=
  ⟨rfl, interactiveNameValidated.2.2.2.1 rawNoName rfl, rfl, rfl,
   (interactiveNameValidated.2.2.2.2.2 rawValid2 "my-api_2" cfgValid2 rfl rfl).1,
   (interactiveNameValidated.2.2.2.2.2 rawValid2 "my-api_2" cfgValid2 rfl rfl).2⟩

/-- Claim C9: configuration resolution is a pure, deterministic function of
the positional name and the raw answers — identical inputs resolve to
identical configs (the embedding of the resolver is effect-free). -/
theorem resolverDeterministic :
    ∀ (pa pb : Option String) (aa ab : RawAnswers),
      pa = pb → aa = ab → promptForConfig pa aa = promptForConfig pb ab := by
  intro pa pb aa ab hp ha
  rw [hp, ha]

/-- Witness for C9 at the concrete input `rawApi`. -/
theorem resolverDeterministicWitness :
    promptForConfig Option.none rawApi = promptForConfig Option.none rawApi :=
  resolverDeterministic Option.none Option.none rawApi rawApi rfl rfl

set_option maxRecDepth 8192 in
/-- Claim C7: with `docker = true` the generated file set includes the
Dockerfile, whose content has the non-root `USER nodejs` directive and the
HEALTHCHECK instruction; with `docker = false` no file at path
`Dockerfile` is generated. -/
theorem dockerfileEmission :
    ∀ cfg : ProjectConfig,
      (cfg.features.docker = true →
        GeneratedFile.text "Dockerfile" dockerfileLines ∈ generateDockerFiles cfg ∧
        "USER nodejs" ∈ dockerfileLines ∧
        healthcheckLine ∈ dockerfileLines ∧
        healthcheckLine.toList.take 11 = "HEALTHCHECK".toList) ∧
      (cfg.features.docker = false →
        ∀ g ∈ generateDockerFiles cfg, filePath g ≠ "Dockerfile") := by
  intro cfg
  constructor
  · intro hd
    refine ⟨?_, by decide, by decide, by decide⟩
    by_cases hc : cfg.features.dockerCompose = true <;>
      simp [generateDockerFiles, hd, hc]
  · intro hd g hg
    by_cases hc : cfg.features.dockerCompose = true
    · simp [generateDockerFiles, hd, hc] at hg
      subst hg
      simp [filePath]
    · simp only [Bool.not_eq_true] at hc
      simp [generateDockerFiles, hd, hc] at hg

/-- Witness for C7 at the concrete config `cfgDocker`. -/
theorem dockerfileEmissionWitness :
    cfgDocker.features.docker = true ∧
    GeneratedFile.text "Dockerfile" dockerfileLines ∈ generateDockerFiles cfgDocker ∧
    "USER nodejs" ∈ dockerfileLines ∧
    healthcheckLine ∈ dockerfileLines :=
  ⟨rfl, ((dockerfileEmission cfgDocker).1 rfl).1,
   ((dockerfileEmission cfgDocker).1 rfl).2.1,
   ((dockerfileEmission cfgDocker).1 rfl).2.2.1⟩

/-- Claim C8: with `dockerCompose = true` the generated compose definition
has exactly two services (app and redis) when `auth = true`, the app
service depending on redis, and exactly one service when `auth = false`. -/
theorem composeServiceGraph :
    ∀ cfg : ProjectConfig, cfg.features.dockerCompose = true →
      GeneratedFile.yaml "docker-compose.yml" (composeFile cfg) ∈ generateDockerFiles cfg ∧
      (cfg.features.auth = true →
        (composeFile cfg).services.length = 2 ∧
        (composeFile cfg).services.map Prod.fst = ["app", "redis"] ∧
        ∃ app, ("app", app) ∈ (composeFile cfg).services ∧
          app.depends_on = ["redis"]) ∧
      (cfg.features.auth = false → (composeFile cfg).services.length = 1) := by
  intro cfg hc
  refine ⟨?_, ?_, ?_⟩
  · by_cases hd : cfg.features.docker = true <;>
      simp [generateDockerFiles, hd, hc]
  · intro ha
    refine ⟨by simp [composeFile, ha], by simp [composeFile, ha], ?_⟩
    refine ⟨{ appServiceBase with
        environment := appServiceBase.environment ++ ["REDIS_URL=redis://redis:6379"],
        depends_on := appServiceBase.depends_on ++ ["redis"] }, ?_, rfl⟩
    simp [composeFile, ha]
  · intro ha
    simp [composeFile, ha]

/-- Witness for C8 at the concrete config `cfgCompose`. -/
theorem composeServiceGraphWitness :
    cfgCompose.features.dockerCompose = true ∧
    cfgCompose.features.auth = true ∧
    (composeFile cfgCompose).services.length = 2 ∧
    (composeFile cfgCompose).services.map Prod.fst = ["app", "redis"] :=
  ⟨rfl, rfl, ((composeServiceGraph cfgCompose rfl).2.1 rfl).1,
   ((composeServiceGraph cfgCompose rfl).2.1 rfl).2.1⟩

/-- Claim C10: the resolver never produces `ci = gitlab`, so for every
resolved config with `ci ≠ none` the CI step takes the GitHub branch and
emits exactly the one workflow file. -/
theorem ciNeverGitlab :
    ∀ (p : Option String) (raw : RawAnswers) (cfg : ProjectConfig),
      promptForConfig p raw = Except.ok cfg →
      cfg.features.ci ≠ Ci.gitlab ∧
      (cfg.features.ci ≠ Ci.none →
        generateCIFiles cfg =
          [GeneratedFile.text ".github/workflows/ci.yml" (ciWorkflowLines cfg)]) := by
  intro p raw cfg h
  obtain ⟨nm, rfl⟩ := promptForConfig_ok_shape p raw cfg h
  have hci : (mkConfig raw nm).features.ci = Ci.github ∨
      (mkConfig raw nm).features.ci = Ci.none := by
    show (resolveFeatures raw.template raw.additionalFeatures).ci = _ ∨
      (resolveFeatures raw.template raw.additionalFeatures).ci = _
    cases ht : raw.template with
    | minimal =>
      cases raw.additionalFeatures with
      | none => right; rfl
      | some sel =>
        rw [resolveFeatures_minimal_some]
        by_cases hs : sel.contains "ci-github" = true
        · left
          show (if sel.contains "ci-github" then Ci.github else Ci.none) = Ci.github
          rw [hs]
          rfl
        · right
          rw [Bool.not_eq_true] at hs
          show (if sel.contains "ci-github" then Ci.github else Ci.none) = Ci.none
          rw [hs]
          rfl
    | api => left; rfl
    | full => left; rfl
  constructor
  · rcases hci with h1 | h1 <;> simp [h1]
  · intro hne
    rcases hci with h1 | h1
    · simp [generateCIFiles, h1]
    · exact absurd h1 hne

/-- Witness for C10 at the concrete input `rawApi`. -/
theorem ciNeverGitlabWitness :
    promptForConfig Option.none rawApi = Except.ok cfgApiW ∧
    cfgApiW.features.ci ≠ Ci.gitlab ∧
    generateCIFiles cfgApiW =
      [GeneratedFile.text ".github/workflows/ci.yml" (ciWorkflowLines cfgApiW)] :=
  ⟨rfl, (ciNeverGitlab Option.none rawApi cfgApiW rfl).1,
   (ciNeverGitlab Option.none rawApi cfgApiW rfl).2 (by decide)⟩

/-- Claim C3: the pipeline steps are driven in the fixed source order, and
when, after a prefix of succeeding steps, a step reports failure, the run
stops with exactly that prefix (plus the failing step) executed, the state
built so far kept (no rollback), and an unsuccessful overall result (the
source then exits nonzero). -/
theorem pipelineFailFast :
    (∀ (σ : Type) (c1 c2 c3 c4 c5 c6 c7 c8 c9 : σ → σ × Bool),
        (mainSteps c1 c2 c3 c4 c5 c6 c7 c8 c9).map StepDef.name = mainStepNames) ∧
    (∀ (σ : Type) (pre : List (StepDef σ)) (st : StepDef σ)
        (post : List (StepDef σ)) (s : σ),
        allSucceed pre s → (st.run (threadState pre s)).snd = false →
        runPipeline (pre ++ st :: post) s =
          ((st.run (threadState pre s)).fst,
           List.map StepDef.name pre ++ [st.name], false)) := by
  constructor
  · intro σ c1 c2 c3 c4 c5 c6 c7 c8 c9
    rfl
  · intro σ pre
    induction pre with
    | nil =>
      intro st post s _ hf
      simp only [threadState] at hf
      simp [runPipeline, threadState, hf]
    | cons p ps ih =>
      intro st post s hall hf
      obtain ⟨h1, h2⟩ := hall
      have hth : threadState (p :: ps) s = threadState ps (p.run s).fst := rfl
      rw [hth] at hf
      have hrec := ih st post (p.run s).fst h2 hf
      simp [runPipeline, h1, hrec, hth]

/-- Witness for C3: a three-step prefix run where the third step fails and
the fourth never executes. -/
theorem pipelineFailFastWitness :
    allSucceed [noopStep "a", noopStep "b"] ([] : List String) ∧
    (failStep.run (threadState [noopStep "a", noopStep "b"] [])).snd = false ∧
    runPipeline ([noopStep "a", noopStep "b"] ++ failStep :: [noopStep "c"])
        ([] : List String) =
      ((failStep.run (threadState [noopStep "a", noopStep "b"] [])).fst,
       List.map StepDef.name [noopStep "a", noopStep "b"] ++ [failStep.name],
       false) :=
  ⟨⟨rfl, rfl, trivial⟩, rfl,
   pipelineFailFast.2 (List String) [noopStep "a", noopStep "b"] failStep
     [noopStep "c"] [] ⟨rfl, rfl, trivial⟩ rfl⟩

/-- Claim C4 (code bug): when the install subprocess fails,
`installDependencies` prints the remediation message but returns `false`,
so the driver loop of `main` stops and exits nonzero — `initializeGit`
never runs.  The pipeline below evaluates the nine-step run at such a
failing input: the run ends unsuccessfully after `installDependencies`,
contradicting the claim that the failure is downgraded rather than a hard
abort. -/
theorem installFailureHardAborts :
    (installDependencies cfgC4 false).snd = false ∧
    runPipeline pipelineC4 [] =
      (["s1", "s2", "s3", "s4", "s5", "s6", "s7",
        "You can install dependencies manually by running:",
        "  cd my-api && npm install"],
       ["createProjectStructure", "copyTemplateFiles", "generatePackageJson",
        "generateConfigFiles", "generateDockerFiles", "generateCIFiles",
        "generateREADME", "installDependencies"],
       false) ∧
    "initializeGit" ∉ (runPipeline pipelineC4 ([] : List String)).snd.fst := by
  refine ⟨rfl, by decide, by decide⟩
